import Mathlib

/-!
# Verification of the similarity-analysis pipeline of the Image-Processing-App

Shallow embedding of the core similarity-analysis pipeline found in
`src/Docker/run_models.py` and (identically duplicated as methods) in
`src/tabs/analysis_setup_tab.py`:

* `load_images` — directory filtering on a case-insensitive `.jpg` suffix,
* `get_transform` — the fixed preprocessing constants,
* `load_model` — the closed backbone enumeration,
* `extract_features` — per-image inference (the CNN itself is an abstract
  parameter; its numeric behaviour is external to the program text),
* `cosine_similarity` / `compute_pairwise_similarity` — pairwise cosine
  similarities over the feature matrix,
* `run_cnn_analysis` — the batch entry point, modelled with an explicit
  trace of externally visible effects (model loads, directory creation,
  file writes),
* `extract_labels` and `category_similarity_accuracy` — the auxiliary
  label / accuracy path.

Python `str` values are modelled as Lean `String`s; the Python string
operations used by the source (`lower`, `endswith`, `split`, slicing)
are defined below directly on the character lists, matching Python's
character-sequence semantics.  Machine floats are modelled as `ℚ` where
the code only adds, compares and divides (the accuracy scorer), and as
`ℝ` where square roots occur (cosine similarity).  NumPy's NaN result
for the median of an empty list is modelled by `Option`.
-/

namespace ImageProc

/-- Decidable equality for `Except` carriers of decidable components, used to
evaluate the fallible operations on concrete inputs. -/
instance {ε α : Type} [DecidableEq ε] [DecidableEq α] :
    DecidableEq (Except ε α) := fun a b =>
  match a, b with
  | .ok x, .ok y =>
    if h : x = y then isTrue (by rw [h]) else isFalse (by simp [h])
  | .ok _, .error _ => isFalse (by simp)
  | .error _, .ok _ => isFalse (by simp)
  | .error x, .error y =>
    if h : x = y then isTrue (by rw [h]) else isFalse (by simp [h])

/-! ## Python string primitives (character-sequence semantics) -/

/-- Python `str.lower()` restricted to its ASCII behaviour, which is all the
source relies on (it compares against the literal `".jpg"`). -/
def pyLower (s : String) : String := ⟨s.data.map Char.toLower⟩

/-- Python `str.endswith(t)`: `t` is a suffix of `s` (character-wise). -/
def pyEndsWith (s t : String) : Bool :=
  List.isPrefixOf t.data.reverse s.data.reverse

/-- Auxiliary for `pySplit`: split a character list at every occurrence of
the separator character.  `Python`-style: the result always has one more
segment than there are separators, so the empty string splits to `[""]`. -/
def splitChars (sep : Char) : List Char → List (List Char)
  | [] => [[]]
  | c :: cs =>
    match splitChars sep cs with
    | [] => if c = sep then [[], []] else [[c]]
    | seg :: segs => if c = sep then [] :: seg :: segs else (c :: seg) :: segs

/-- Python `s.split(".")` for the one-character separator used in the
source; agrees with Python on all inputs (`"".split(".") == [""]`,
`"a..b".split(".") == ["a", "", "b"]`, ...). -/
def pySplitDot (s : String) : List String :=
  (splitChars '.' s.data).map (fun cs => ⟨cs⟩)

/-- Python slicing `s[:4]`: the first at-most-4 characters of `s`. -/
def pySliceTo4 (s : String) : String := ⟨s.data.take 4⟩

/-! ## Process environment (`os.environ.get`) -/

/-- The process environment: an association list of variable/value pairs. -/
def Env : Type := List (String × String)

/-- Python `os.environ.get(k, d)`. -/
def envGet (env : Env) (k d : String) : String :=
  ((env : List (String × String)).lookup k).getD d

/-- Embeds `OUTPUT_DIR = os.environ.get("OUTPUT_DIR", "/app/output")`
(`src/Docker/run_models.py`, line 14), evaluated once at startup. -/
def OUTPUT_DIR (env : Env) : String := envGet env "OUTPUT_DIR" "/app/output"

/-- Python `os.path.join(dir, file)` for an absolute `dir` and a relative `file`,
which is the only shape the source uses. -/
def pathJoin (dir file : String) : String := dir ++ "/" ++ file

/-! ## Images, models, data frames and the effect trace -/

/-- A decoded image.  `load_images` converts each file to grayscale and
re-stacks it to three identical channels; the resulting pixel content is a
function of the file alone, so an image is represented by the path of the
file it was decoded from.  No verified claim observes pixel values. -/
structure Img where
  path : String
deriving DecidableEq

/-- The feature-extraction backbones built by `load_model`: the closed set of
models the source supports.  `vgg16features` is the VGG16 feature stack up to
the first classifier layer; `resnet50features` is ResNet50 minus its final
classification layer. -/
inductive Model where
  | vgg16features
  | resnet50features
deriving DecidableEq

/-- A pandas `DataFrame` as the source uses it: a numeric matrix whose rows
and columns carry string labels.  `cells i j` is the entry at row `i`,
column `j`. -/
structure DataFrame where
  index : List String
  columns : List String
  cells : ℕ → ℕ → ℝ

/-- Externally visible effects of the batch entry point, in program order:
image decodes, calls to the model loader (with pretrained-weight
initialisation inside the supported branches), output-directory creation
(`os.makedirs`), `DataFrame.to_csv`, and `plt.savefig`. -/
inductive Event where
  | imageRead (path : String)
  | loadModelCall (name : String)
  | weightsInit (name : String)
  | mkdirOutput (dir : String)
  | writeCsv (path : String) (df : DataFrame)
  | writePng (path : String)

/-- The file-creating effects among the events (CSV and PNG writes). -/
def Event.isFileWrite : Event → Bool
  | .writeCsv _ _ => true
  | .writePng _ => true
  | _ => false

/-- The path written by a file-creating event. -/
def Event.writePath : Event → Option String
  | .writeCsv p _ => some p
  | .writePng p => some p
  | _ => none

/-! ## `load_images` (run_models.py lines 16–33) -/

/-- The filter applied to each directory entry:
`filename.lower().endswith('.jpg')`. -/
def isJpgName (filename : String) : Bool := pyEndsWith (pyLower filename) ".jpg"

/-- Embeds `load_images`: keep the `.jpg`-suffixed entries of the directory listing
(in listing order), decode each (an `imageRead` effect), and return the
images paired with their filenames.  The grayscale/3-channel conversion is
a pure function of the decoded file and is carried inside `Img`. -/
def load_images (listing : List String) :
    (List Img × List String) × List Event :=
  let names := listing.filter isJpgName
  ((names.map Img.mk, names), names.map Event.imageRead)

/-! ## `get_transform` (run_models.py lines 35–46) -/

/-- The preprocessing pipeline returned by `get_transform`: a resize to a
fixed square resolution followed by tensor conversion and a per-channel
affine normalization with fixed mean/std triples.  The constants are
rationals, read off the source text. -/
structure Transform where
  resizeTo : ℕ × ℕ
  mean : List ℚ
  std : List ℚ
deriving DecidableEq

/-- Embeds `get_transform()`: resize to 224×224, `ToTensor`, then
`Normalize(mean=[0.485, 0.456, 0.406], std=[0.229, 0.244, 0.225])` —
the constants exactly as they appear in the source (both copies:
run_models.py line 45 and analysis_setup_tab.py line 239). -/
def get_transform : Transform :=
  ⟨(224, 224), [0.485, 0.456, 0.406], [0.229, 0.244, 0.225]⟩

/-- The standard ImageNet channel means, as the spec describes them. -/
def imagenetMean : List ℚ := [0.485, 0.456, 0.406]

/-- The standard ImageNet channel standard deviations, as the spec describes
them. -/
def imagenetStd : List ℚ := [0.229, 0.224, 0.225]

/-! ## `load_model` (run_models.py lines 48–63) -/

/-- Embeds `load_model`: the closed two-backbone enumeration.  Returns the built
feature extractor together with the effects performed (pretrained-weight
initialisation happens only inside the two supported branches); any other
identifier raises `ValueError("Not an available model.")` having performed
no effect. -/
def load_model (model_name : String) : Except String Model × List Event :=
  if model_name = "vgg16" then
    (Except.ok Model.vgg16features, [Event.weightsInit "vgg16"])
  else if model_name = "resnet50" then
    (Except.ok Model.resnet50features, [Event.weightsInit "resnet50"])
  else
    (Except.error "Not an available model.", [])

/-! ## Cosine similarity (run_models.py lines 76–79, sklearn semantics) -/

/-- Dot product of two feature vectors (trailing entries of the longer vector
are ignored, as all rows of one feature matrix share a length). -/
noncomputable def dotp (v w : List ℝ) : ℝ :=
  (List.zipWith (fun a b => a * b) v w).sum

/-- Euclidean norm of a feature vector. -/
noncomputable def l2norm (v : List ℝ) : ℝ := Real.sqrt (dotp v v)

/-- Row normalisation as `sklearn.preprocessing.normalize` performs it inside
`cosine_similarity`: divide by the Euclidean norm, with a zero norm replaced
by 1 so that a zero row stays zero instead of dividing by zero. -/
noncomputable def skNormalizeRow (v : List ℝ) : List ℝ :=
  v.map fun x => x / (if l2norm v = 0 then 1 else l2norm v)

/-- Embeds `sklearn.metrics.pairwise.cosine_similarity(features)`: normalise every
row, then take pairwise dot products.  Out-of-range indices denote empty
rows. -/
noncomputable def cosine_similarity (features : List (List ℝ)) (i j : ℕ) : ℝ :=
  dotp (skNormalizeRow (features.getD i [])) (skNormalizeRow (features.getD j []))

/-- The cosine-similarity formula as the spec states it:
`dot(v_i, v_j) / (||v_i|| * ||v_j||)`.  Stated from the spec's words, to be
compared with the library computation `cosine_similarity`. -/
noncomputable def cosineFormula (v w : List ℝ) : ℝ :=
  dotp v w / (l2norm v * l2norm w)

/-- Embeds `compute_pairwise_similarity(features, image_names)`: the similarity
matrix together with the `DataFrame` labelling its rows and columns by the
image names. -/
noncomputable def compute_pairwise_similarity (features : List (List ℝ))
    (image_names : List String) : DataFrame × (ℕ → ℕ → ℝ) :=
  (⟨image_names, image_names, cosine_similarity features⟩,
    cosine_similarity features)

/-! ## `extract_features` (run_models.py lines 65–74) -/

/-- Embeds `extract_features(model, images)`: run every image through the
preprocessing transform and the chosen backbone, in input order.  The
numeric behaviour of the pretrained CNN is external input (downloaded
weights), so the composite per-image computation is an explicit parameter
`infer`; every theorem below holds for all `infer`. -/
def extract_features (infer : Model → Img → List ℝ) (model : Model)
    (images : List Img) : List (List ℝ) :=
  images.map (infer model)

/-! ## `run_cnn_analysis` (run_models.py lines 83–108) -/

/-- Outcome and effect trace of one invocation of the batch entry point. -/
structure RunResult where
  outcome : Except String Unit
  events : List Event

/-- Embeds `run_cnn_analysis(model_name, folder, result_name)` over the directory
listing of `folder`: load the images, fail with
`ValueError("No JPG images found")` when none matched, otherwise load the
model, extract features, build the labelled similarity `DataFrame`, create
the output directory, and write `{name}_similarity.csv` and
`{name}heatmap.png` into it. -/
noncomputable def run_cnn_analysis (env : Env) (infer : Model → Img → List ℝ)
    (model_name : String) (listing : List String) (result_name : String) :
    RunResult :=
  let li := load_images listing
  if li.1.1.length = 0 then ⟨Except.error "No JPG images found", li.2⟩
  else
    let lm := load_model model_name
    let evs := li.2 ++ [Event.loadModelCall model_name] ++ lm.2
    match lm.1 with
    | Except.error e => ⟨Except.error e, evs⟩
    | Except.ok model =>
      let features := extract_features infer model li.1.1
      let df : DataFrame := ⟨li.1.2, li.1.2, cosine_similarity features⟩
      let csv_path := pathJoin (OUTPUT_DIR env) (result_name ++ "_similarity.csv")
      let heat_path := pathJoin (OUTPUT_DIR env) (result_name ++ "heatmap.png")
      ⟨Except.ok (),
        evs ++ [Event.mkdirOutput (OUTPUT_DIR env),
                Event.writeCsv csv_path df, Event.writePng heat_path]⟩

/-! ## `extract_labels` (run_models.py lines 121–122) -/

/-- The per-name body of the comprehension in `extract_labels`:
`name.split(".")[1][:4]`.  Indexing a one-element split result at 1 raises
`IndexError`. -/
def extractLabel1 (name : String) : Except String String :=
  match (pySplitDot name).get? 1 with
  | some seg => Except.ok (pySliceTo4 seg)
  | none => Except.error "IndexError"

/-- Embeds `extract_labels`: one label per image name, in order; the comprehension
stops at the first name with fewer than two dot-delimited segments, raising
`IndexError`. -/
def extract_labels (image_names : List String) : Except String (List String) :=
  image_names.mapM extractLabel1

/-! ## `category_similarity_accuracy` (analysis_setup_tab.py lines 304–317) -/

/-- The index pairs visited by the double loop
`for i in range(n): for j in range(i+1, n)`, in visit order. -/
def upperPairs (n : ℕ) : List (ℕ × ℕ) :=
  (List.range n).flatMap fun i =>
    (List.range' (i + 1) (n - (i + 1))).map fun j => (i, j)

/-- The `same_class_sims` list built by the double loop: similarities of the
pairs whose labels agree. -/
def sameClassSims (sim : ℕ → ℕ → ℚ) (labels : List String) : List ℚ :=
  (upperPairs labels.length).filterMap fun p =>
    if labels.getD p.1 "" = labels.getD p.2 "" then some (sim p.1 p.2) else none

/-- The `diff_class_sims` list built by the double loop: similarities of the
pairs whose labels differ. -/
def diffClassSims (sim : ℕ → ℕ → ℚ) (labels : List String) : List ℚ :=
  (upperPairs labels.length).filterMap fun p =>
    if labels.getD p.1 "" = labels.getD p.2 "" then none else some (sim p.1 p.2)

/-- Embeds `np.median`: sort ascending; odd length takes the middle element, even
positive length averages the two middle elements, and the empty list yields
NaN (modelled as `none`; NumPy emits a warning and returns NaN rather than
raising). -/
def npMedian (xs : List ℚ) : Option ℚ :=
  let s := List.insertionSort (· ≤ ·) xs
  let n := xs.length
  if n = 0 then none
  else if n % 2 = 1 then some (s.getD (n / 2) 0)
  else some ((s.getD (n / 2 - 1) 0 + s.getD (n / 2) 0) / 2)

/-- Embeds `category_similarity_accuracy(sim_matrix, labels)`:
partition the upper-triangle similarities by label agreement, take
`threshold = np.median(diff_class_sims)`, count the same-label similarities
strictly above it (every comparison against a NaN threshold is `False`,
so an empty `diff_class_sims` yields count 0), and divide by the number of
same-label pairs — a `ZeroDivisionError` when that number is zero. -/
def category_similarity_accuracy (sim : ℕ → ℕ → ℚ) (labels : List String) :
    Except String ℚ :=
  let same := sameClassSims sim labels
  let correct : ℕ :=
    match npMedian (diffClassSims sim labels) with
    | some t => (same.filter fun s => decide (t < s)).length
    | none => 0
  if same.length = 0 then Except.error "ZeroDivisionError"
  else Except.ok ((correct : ℚ) / (same.length : ℚ))

/-! ## Supporting lemmas: dot products and norms -/

lemma dotp_cons (x y : ℝ) (v w : List ℝ) :
    dotp (x :: v) (y :: w) = x * y + dotp v w := by
  simp [dotp]

lemma dotp_comm (v w : List ℝ) : dotp v w = dotp w v := by
  unfold dotp
  rw [List.zipWith_comm_of_comm]
  intro a b
  ring

lemma dotp_self_nonneg (v : List ℝ) : 0 ≤ dotp v v := by
  induction v with
  | nil => simp [dotp]
  | cons x xs ih =>
    rw [dotp_cons]
    have hx : 0 ≤ x * x := mul_self_nonneg x
    linarith

lemma dotp_self_entries_zero {v : List ℝ} (h : dotp v v = 0) :
    ∀ x ∈ v, x = 0 := by
  induction v with
  | nil => simp
  | cons x xs ih =>
    rw [dotp_cons] at h
    have hx : 0 ≤ x * x := mul_self_nonneg x
    have hxs : 0 ≤ dotp xs xs := dotp_self_nonneg xs
    have h2 : dotp xs xs = 0 := by linarith
    intro y hy
    rcases List.mem_cons.mp hy with rfl | hy
    · exact mul_self_eq_zero.mp (by linarith)
    · exact ih h2 y hy

lemma dotp_zero_left {v : List ℝ} (h : ∀ x ∈ v, x = 0) (w : List ℝ) :
    dotp v w = 0 := by
  induction v generalizing w with
  | nil => simp [dotp]
  | cons x xs ih =>
    cases w with
    | nil => simp [dotp]
    | cons y ys =>
      rw [dotp_cons, h x (List.mem_cons_self _ _),
        ih (fun z hz => h z (List.mem_cons_of_mem _ hz)) ys]
      ring

lemma dotp_map_div (v w : List ℝ) (a b : ℝ) :
    dotp (v.map fun x => x / a) (w.map fun x => x / b) = dotp v w / (a * b) := by
  induction v generalizing w with
  | nil => simp [dotp]
  | cons x xs ih =>
    cases w with
    | nil => simp [dotp]
    | cons y ys =>
      simp only [List.map_cons]
      rw [dotp_cons, dotp_cons, ih, div_mul_div_comm, div_add_div_same]

lemma l2norm_zero_entries {v : List ℝ} (h : l2norm v = 0) : ∀ x ∈ v, x = 0 := by
  unfold l2norm at h
  rw [Real.sqrt_eq_zero (dotp_self_nonneg v)] at h
  exact dotp_self_entries_zero h

lemma cosine_eq_formula (v w : List ℝ) :
    dotp (skNormalizeRow v) (skNormalizeRow w) = cosineFormula v w := by
  unfold skNormalizeRow cosineFormula
  rw [dotp_map_div]
  by_cases hv : l2norm v = 0
  · have hz : dotp v w = 0 := dotp_zero_left (l2norm_zero_entries hv) w
    simp [hv, hz]
  · by_cases hw : l2norm w = 0
    · have hz : dotp v w = 0 := by
        rw [dotp_comm]
        exact dotp_zero_left (l2norm_zero_entries hw) v
      simp [hv, hw, hz]
    · simp [hv, hw]

/-! ## Supporting lemmas: the accuracy scorer -/

lemma mem_upperPairs {n i j : ℕ} : (i, j) ∈ upperPairs n ↔ i < j ∧ j < n := by
  simp only [upperPairs, List.mem_flatMap, List.mem_map, List.mem_range,
    List.mem_range'_1, Prod.mk.injEq]
  constructor
  · rintro ⟨a, ha, b, ⟨hb1, hb2⟩, rfl, rfl⟩
    omega
  · rintro ⟨hij, hjn⟩
    exact ⟨i, by omega, j, ⟨by omega, by omega⟩, rfl, rfl⟩

lemma sameClassSims_ne_nil {sim : ℕ → ℕ → ℚ} {labels : List String}
    (h : ∃ i j, i < j ∧ j < labels.length ∧
      labels.getD i "" = labels.getD j "") :
    sameClassSims sim labels ≠ [] := by
  obtain ⟨i, j, hij, hjn, heq⟩ := h
  have hmem : sim i j ∈ sameClassSims sim labels := by
    apply List.mem_filterMap.mpr
    exact ⟨(i, j), mem_upperPairs.mpr ⟨hij, hjn⟩, by rw [if_pos heq]⟩
  exact List.ne_nil_of_mem hmem

lemma diffClassSims_ne_nil {sim : ℕ → ℕ → ℚ} {labels : List String}
    (h : ∃ i j, i < j ∧ j < labels.length ∧
      labels.getD i "" ≠ labels.getD j "") :
    diffClassSims sim labels ≠ [] := by
  obtain ⟨i, j, hij, hjn, hne⟩ := h
  have hmem : sim i j ∈ diffClassSims sim labels := by
    apply List.mem_filterMap.mpr
    exact ⟨(i, j), mem_upperPairs.mpr ⟨hij, hjn⟩, by rw [if_neg hne]⟩
  exact List.ne_nil_of_mem hmem

lemma npMedian_isSome {xs : List ℚ} (h : xs ≠ []) : ∃ t, npMedian xs = some t := by
  unfold npMedian
  have hlen : xs.length ≠ 0 := by
    simpa [List.length_eq_zero] using h
  simp only [hlen, if_false]
  split <;> exact ⟨_, rfl⟩

lemma accuracy_eq_of_median {sim : ℕ → ℕ → ℚ} {labels : List String} {t : ℚ}
    (ht : npMedian (diffClassSims sim labels) = some t)
    (hlen : (sameClassSims sim labels).length ≠ 0) :
    category_similarity_accuracy sim labels =
      Except.ok
        ((((sameClassSims sim labels).filter fun s => decide (t < s)).length : ℚ) /
          ((sameClassSims sim labels).length : ℚ)) := by
  unfold category_similarity_accuracy
  rw [ht]
  simp [hlen]

lemma accuracy_eq_of_no_median {sim : ℕ → ℕ → ℚ} {labels : List String}
    (ht : npMedian (diffClassSims sim labels) = none)
    (hlen : (sameClassSims sim labels).length ≠ 0) :
    category_similarity_accuracy sim labels = Except.ok 0 := by
  unfold category_similarity_accuracy
  rw [ht]
  simp [hlen]

lemma accuracy_error_of_no_same {sim : ℕ → ℕ → ℚ} {labels : List String}
    (hlen : (sameClassSims sim labels).length = 0) :
    category_similarity_accuracy sim labels =
      Except.error "ZeroDivisionError" := by
  unfold category_similarity_accuracy
  simp [hlen]

/-! ## Supporting lemmas: the label extractor -/

lemma extractLabel1_eq (n : String) :
    extractLabel1 n =
      if 2 ≤ (pySplitDot n).length
      then Except.ok (pySliceTo4 ((pySplitDot n).getD 1 ""))
      else Except.error "IndexError" := by
  unfold extractLabel1
  rcases hsplit : pySplitDot n with _ | ⟨a, _ | ⟨b, rest⟩⟩ <;> simp

lemma extract_labels_eq (names : List String) :
    extract_labels names =
      if ∀ n ∈ names, 2 ≤ (pySplitDot n).length
      then Except.ok (names.map fun n => pySliceTo4 ((pySplitDot n).getD 1 ""))
      else Except.error "IndexError" := by
  induction names with
  | nil => rfl
  | cons n ns ih =>
    simp only [extract_labels] at ih ⊢
    rw [List.mapM_cons, extractLabel1_eq]
    by_cases hn : 2 ≤ (pySplitDot n).length
    · rw [if_pos hn, ih]
      by_cases hns : ∀ m ∈ ns, 2 ≤ (pySplitDot m).length
      · rw [if_pos hns, if_pos (by simpa [hn] using hns)]
        rfl
      · rw [if_neg hns, if_neg (by simp [hns])]
        rfl
    · rw [if_neg hn, if_neg (by simp [hn])]
      rfl

lemma getD_map_eq (f : String → String) (l : List String) (i : ℕ)
    (hi : i < l.length) : (l.map f).getD i "" = f (l.getD i "") := by
  rw [List.getD_eq_getElem?_getD, List.getElem?_map,
    List.getElem?_eq_getElem hi, Option.map_some', Option.getD_some,
    List.getD_eq_getElem?_getD, List.getElem?_eq_getElem hi, Option.getD_some]

lemma pySliceTo4_length (s : String) : (pySliceTo4 s).length ≤ 4 := by
  show (s.data.take 4).length ≤ 4
  simp [List.length_take]

lemma pySliceTo4_of_short {s : String} (h : s.length ≤ 4) : pySliceTo4 s = s := by
  unfold pySliceTo4
  rw [List.take_of_length_le h]

/-! ## Claim theorems -/

/-- C4: for every feature matrix, the similarity matrix produced by
`compute_pairwise_similarity` is symmetric (`M[i][j] = M[j][i]` for all
`i, j`), and each entry `(i, j)` equals the cosine similarity
`dot(v_i, v_j) / (||v_i|| * ||v_j||)` of rows `i` and `j` (exactly, in the
real-number model). -/
theorem compute_pairwise_similarity_symm (features : List (List ℝ))
    (image_names : List String) (i j : ℕ) :
    (compute_pairwise_similarity features image_names).2 i j =
      (compute_pairwise_similarity features image_names).2 j i ∧
    (compute_pairwise_similarity features image_names).2 i j =
      cosineFormula (features.getD i []) (features.getD j []) := by
  constructor
  · simp only [compute_pairwise_similarity, cosine_similarity]
    exact dotp_comm _ _
  · simp only [compute_pairwise_similarity, cosine_similarity]
    exact cosine_eq_formula _ _

/-- C2: `get_transform` resizes to 224×224 and uses the fixed,
non-configurable ImageNet mean `[0.485, 0.456, 0.406]`, but its std triple
is `[0.229, 0.244, 0.225]`, which differs from the ImageNet standard
`[0.229, 0.224, 0.225]` in the green channel — the code contradicts its own
docstring ("normalizes the image using ImageNet mean and std values"). -/
theorem get_transform_constants :
    get_transform.resizeTo = (224, 224) ∧
    get_transform.mean = imagenetMean ∧
    get_transform.std = [0.229, 0.244, 0.225] ∧
    get_transform.std ≠ imagenetStd := by
  refine ⟨rfl, rfl, rfl, ?_⟩
  intro h
  simp only [get_transform, imagenetStd, List.cons.injEq, and_true] at h
  norm_num at h

/-- C1: whenever the labels admit at least one same-label index pair and at
least one different-label index pair, `category_similarity_accuracy` returns
(without raising) the count of same-label similarities strictly greater than
the median of the different-label similarities, divided by the count of
same-label pairs, and that value lies in `[0, 1]`. -/
theorem category_similarity_accuracy_spec (sim : ℕ → ℕ → ℚ)
    (labels : List String)
    (hsame : ∃ i j, i < j ∧ j < labels.length ∧
      labels.getD i "" = labels.getD j "")
    (hdiff : ∃ i j, i < j ∧ j < labels.length ∧
      labels.getD i "" ≠ labels.getD j "") :
    ∃ t q, npMedian (diffClassSims sim labels) = some t ∧
      category_similarity_accuracy sim labels = Except.ok q ∧
      q = (((sameClassSims sim labels).filter fun s => decide (t < s)).length : ℚ) /
          ((sameClassSims sim labels).length : ℚ) ∧
      0 ≤ q ∧ q ≤ 1 := by
  have hs := @sameClassSims_ne_nil sim labels hsame
  have hd := @diffClassSims_ne_nil sim labels hdiff
  obtain ⟨t, ht⟩ := npMedian_isSome hd
  have hlen : (sameClassSims sim labels).length ≠ 0 := by
    simpa [List.length_eq_zero] using hs
  have hpos : (0 : ℚ) < ((sameClassSims sim labels).length : ℚ) := by
    exact_mod_cast Nat.pos_of_ne_zero hlen
  refine ⟨t, _, ht, accuracy_eq_of_median ht hlen, rfl, ?_, ?_⟩
  · exact div_nonneg (Nat.cast_nonneg _) (Nat.cast_nonneg _)
  · rw [div_le_one hpos]
    exact_mod_cast List.length_filter_le _ _

/-- C1 witness: for labels `{A, A, B}` (one same-label pair, two
different-label pairs) the scorer succeeds with a value in `[0, 1]`. -/
theorem category_similarity_accuracy_spec_witness :
    (∃ i j, i < j ∧ j < (["A", "A", "B"] : List String).length ∧
      (["A", "A", "B"] : List String).getD i "" =
        (["A", "A", "B"] : List String).getD j "") ∧
    (∃ i j, i < j ∧ j < (["A", "A", "B"] : List String).length ∧
      (["A", "A", "B"] : List String).getD i "" ≠
        (["A", "A", "B"] : List String).getD j "") ∧
    (∃ t q, npMedian (diffClassSims (fun _ _ => 1) ["A", "A", "B"]) = some t ∧
      category_similarity_accuracy (fun _ _ => 1) ["A", "A", "B"] =
        Except.ok q ∧
      q = ((((sameClassSims (fun _ _ => 1) ["A", "A", "B"]).filter
            fun s => decide (t < s)).length : ℚ) /
          ((sameClassSims (fun _ _ => 1) ["A", "A", "B"]).length : ℚ)) ∧
      0 ≤ q ∧ q ≤ 1) := by
  have h1 : ∃ i j, i < j ∧ j < (["A", "A", "B"] : List String).length ∧
      (["A", "A", "B"] : List String).getD i "" =
        (["A", "A", "B"] : List String).getD j "" :=
    ⟨0, 1, by decide, by decide, by decide⟩
  have h2 : ∃ i j, i < j ∧ j < (["A", "A", "B"] : List String).length ∧
      (["A", "A", "B"] : List String).getD i "" ≠
        (["A", "A", "B"] : List String).getD j "" :=
    ⟨0, 2, by decide, by decide, by decide⟩
  exact ⟨h1, h2, category_similarity_accuracy_spec (fun _ _ => 1) _ h1 h2⟩

/-- C5 counterexample: with labels `["u", "u"]` there are zero
different-label pairs, yet the scorer does not fail — `np.median([])` is NaN
(not an exception), every `sim > NaN` comparison is `False`, and the result
is `0.0`.  This falsifies the claim that a `ZeroDivisionError`-class failure
occurs exactly when there are zero same-label pairs *or* zero
different-label pairs. -/
theorem category_similarity_accuracy_zero_diff_ok :
    sameClassSims (fun _ _ => 1) ["u", "u"] = [1] ∧
    diffClassSims (fun _ _ => 1) ["u", "u"] = [] ∧
    category_similarity_accuracy (fun _ _ => 1) ["u", "u"] = Except.ok 0 := by
  refine ⟨by decide, by decide, ?_⟩
  exact accuracy_eq_of_no_median (by decide) (by decide)

/-- C5 (amended): the scorer fails with a `ZeroDivisionError`-class
condition exactly when there are zero same-label pairs; with at least one
same-label pair and zero different-label pairs it instead returns `0.0`
(the NaN median makes every comparison `False`). -/
theorem category_similarity_accuracy_error_iff (sim : ℕ → ℕ → ℚ)
    (labels : List String) :
    ((∃ e, category_similarity_accuracy sim labels = Except.error e) ↔
      sameClassSims sim labels = []) ∧
    (sameClassSims sim labels ≠ [] → diffClassSims sim labels = [] →
      category_similarity_accuracy sim labels = Except.ok 0) := by
  constructor
  · constructor
    · rintro ⟨e, he⟩
      by_contra hne
      have hlen : (sameClassSims sim labels).length ≠ 0 := by
        simpa [List.length_eq_zero] using hne
      cases hmed : npMedian (diffClassSims sim labels) with
      | none => rw [accuracy_eq_of_no_median hmed hlen] at he; cases he
      | some t => rw [accuracy_eq_of_median hmed hlen] at he; cases he
    · intro h
      exact ⟨_, accuracy_error_of_no_same (by simp [h])⟩
  · intro h1 h2
    have hlen : (sameClassSims sim labels).length ≠ 0 := by
      simpa [List.length_eq_zero] using h1
    have hmed : npMedian (diffClassSims sim labels) = none := by
      rw [h2]
      rfl
    exact accuracy_eq_of_no_median hmed hlen

/-- C5 witness: three images all sharing one label — same-label pairs exist,
different-label pairs do not, and the scorer returns `0.0` rather than
raising. -/
theorem category_similarity_accuracy_error_iff_witness :
    sameClassSims (fun _ _ => 5) ["a", "a", "a"] ≠ [] ∧
    diffClassSims (fun _ _ => 5) ["a", "a", "a"] = [] ∧
    ((∃ e, category_similarity_accuracy (fun _ _ => 5) ["a", "a", "a"] =
        Except.error e) ↔
      sameClassSims (fun _ _ => 5) ["a", "a", "a"] = []) ∧
    category_similarity_accuracy (fun _ _ => 5) ["a", "a", "a"] =
      Except.ok 0 := by
  have h1 : sameClassSims (fun _ _ => 5) ["a", "a", "a"] ≠ [] := by decide
  have h2 : diffClassSims (fun _ _ => 5) ["a", "a", "a"] = [] := by decide
  obtain ⟨ha, hb⟩ :=
    category_similarity_accuracy_error_iff (fun _ _ => 5) ["a", "a", "a"]
  exact ⟨h1, h2, ha, hb h1 h2⟩

/-- C6: `extract_labels` returns, for each image name, the first at-most-4
characters of the second dot-delimited segment, and fails with an
`IndexError`-class condition exactly when some name has fewer than two
dot-delimited segments. -/
theorem extract_labels_spec (image_names : List String) :
    extract_labels image_names =
      if ∀ n ∈ image_names, 2 ≤ (pySplitDot n).length
      then Except.ok
        (image_names.map fun n => pySliceTo4 ((pySplitDot n).getD 1 ""))
      else Except.error "IndexError" :=
  extract_labels_eq image_names

/-- C10: when every name has at least two dot-delimited segments,
`extract_labels` returns exactly one label per name, in input order; every
label has length at most 4; and a second segment shorter than 4 characters
is returned whole (truncation is at-most-4, not exactly-4). -/
theorem extract_labels_wellformed (image_names : List String)
    (h : ∀ n ∈ image_names, 2 ≤ (pySplitDot n).length) :
    ∃ ls, extract_labels image_names = Except.ok ls ∧
      ls.length = image_names.length ∧
      (∀ i, i < image_names.length →
        ls.getD i "" =
          pySliceTo4 ((pySplitDot (image_names.getD i "")).getD 1 "")) ∧
      (∀ l ∈ ls, l.length ≤ 4) ∧
      (∀ i, i < image_names.length →
        ((pySplitDot (image_names.getD i "")).getD 1 "").length ≤ 4 →
        ls.getD i "" = (pySplitDot (image_names.getD i "")).getD 1 "") := by
  refine ⟨image_names.map fun n => pySliceTo4 ((pySplitDot n).getD 1 ""),
    by rw [extract_labels_eq, if_pos h], List.length_map _ _, ?_, ?_, ?_⟩
  · intro i hi
    rw [getD_map_eq _ _ _ hi]
  · intro l hl
    obtain ⟨n, _, rfl⟩ := List.mem_map.mp hl
    exact pySliceTo4_length _
  · intro i hi hshort
    rw [getD_map_eq _ _ _ hi]
    exact pySliceTo4_of_short hshort

/-- C10 witness: two well-formed names, the second with a short second
segment that is returned whole. -/
theorem extract_labels_wellformed_witness :
    (∀ n ∈ (["cat.a1b2c.jpg", "dog.xy"] : List String),
      2 ≤ (pySplitDot n).length) ∧
    (∃ ls, extract_labels ["cat.a1b2c.jpg", "dog.xy"] = Except.ok ls ∧
      ls.length = (["cat.a1b2c.jpg", "dog.xy"] : List String).length ∧
      (∀ i, i < (["cat.a1b2c.jpg", "dog.xy"] : List String).length →
        ls.getD i "" =
          pySliceTo4 ((pySplitDot ((["cat.a1b2c.jpg", "dog.xy"] :
            List String).getD i "")).getD 1 "")) ∧
      (∀ l ∈ ls, l.length ≤ 4) ∧
      (∀ i, i < (["cat.a1b2c.jpg", "dog.xy"] : List String).length →
        ((pySplitDot ((["cat.a1b2c.jpg", "dog.xy"] :
          List String).getD i "")).getD 1 "").length ≤ 4 →
        ls.getD i "" = (pySplitDot ((["cat.a1b2c.jpg", "dog.xy"] :
          List String).getD i "")).getD 1 "")) := by
  have h : ∀ n ∈ (["cat.a1b2c.jpg", "dog.xy"] : List String),
      2 ≤ (pySplitDot n).length := by decide
  exact ⟨h, extract_labels_wellformed _ h⟩

/-- C7: calling `load_model` with an identifier outside
`{vgg16, resnet50}` raises `ValueError("Not an available model.")`, with an
empty effect trace — in particular no image is read. -/
theorem load_model_unsupported (model_name : String)
    (h1 : model_name ≠ "vgg16") (h2 : model_name ≠ "resnet50") :
    (load_model model_name).1 = Except.error "Not an available model." ∧
    (load_model model_name).2 = [] ∧
    ∀ p, Event.imageRead p ∉ (load_model model_name).2 := by
  unfold load_model
  rw [if_neg h1, if_neg h2]
  exact ⟨rfl, rfl, by simp⟩

/-- C7 witness: the unsupported identifier `"alexnet"`. -/
theorem load_model_unsupported_witness :
    ("alexnet" : String) ≠ "vgg16" ∧ ("alexnet" : String) ≠ "resnet50" ∧
    (load_model "alexnet").1 = Except.error "Not an available model." ∧
    (load_model "alexnet").2 = [] ∧
    ∀ p, Event.imageRead p ∉ (load_model "alexnet").2 := by
  have h1 : ("alexnet" : String) ≠ "vgg16" := by decide
  have h2 : ("alexnet" : String) ≠ "resnet50" := by decide
  obtain ⟨a, b, c⟩ := load_model_unsupported "alexnet" h1 h2
  exact ⟨h1, h2, a, b, c⟩

/-- C3: on a directory listing with zero `.jpg`-suffixed names
(case-insensitively), `run_cnn_analysis` raises
`ValueError("No JPG images found")` and the model loader is never called. -/
theorem run_cnn_analysis_no_jpg (env : Env) (infer : Model → Img → List ℝ)
    (model_name : String) (listing : List String) (result_name : String)
    (h : listing.filter isJpgName = []) :
    (run_cnn_analysis env infer model_name listing result_name).outcome =
      Except.error "No JPG images found" ∧
    ∀ m, Event.loadModelCall m ∉
      (run_cnn_analysis env infer model_name listing result_name).events := by
  have hli : load_images listing = (([], []), []) := by
    unfold load_images
    rw [h]
    rfl
  unfold run_cnn_analysis
  rw [hli]
  exact ⟨rfl, by simp⟩

/-- C3 witness: a listing with no `.jpg` entries. -/
theorem run_cnn_analysis_no_jpg_witness :
    (["readme.txt", "photo.png"] : List String).filter isJpgName = [] ∧
    ((run_cnn_analysis [] (fun _ _ => []) "vgg16" ["readme.txt", "photo.png"]
        "out").outcome = Except.error "No JPG images found" ∧
      ∀ m, Event.loadModelCall m ∉
        (run_cnn_analysis [] (fun _ _ => []) "vgg16"
          ["readme.txt", "photo.png"] "out").events) := by
  have h : (["readme.txt", "photo.png"] : List String).filter isJpgName = [] :=
    by decide
  exact ⟨h, run_cnn_analysis_no_jpg [] (fun _ _ => []) "vgg16" _ "out" h⟩

/-- C9: when `run_cnn_analysis` fails for lack of `.jpg` files, no
externally visible state has changed — the effect trace is empty: no model
load, no weight initialisation, no output-directory creation, and no CSV or
heatmap write. -/
theorem run_cnn_analysis_no_jpg_atomic (env : Env)
    (infer : Model → Img → List ℝ) (model_name : String)
    (listing : List String) (result_name : String)
    (h : listing.filter isJpgName = []) :
    (run_cnn_analysis env infer model_name listing result_name).events = [] := by
  have hli : load_images listing = (([], []), []) := by
    unfold load_images
    rw [h]
    rfl
  unfold run_cnn_analysis
  rw [hli]
  rfl

/-- C9 witness: a listing whose entries all have non-`.jpg` suffixes. -/
theorem run_cnn_analysis_no_jpg_atomic_witness :
    (["doc.pdf", "a.jpg.bak"] : List String).filter isJpgName = [] ∧
    (run_cnn_analysis [("OUTPUT_DIR", "/data/out")] (fun _ _ => [1])
      "resnet50" ["doc.pdf", "a.jpg.bak"] "res").events = [] := by
  have h : (["doc.pdf", "a.jpg.bak"] : List String).filter isJpgName = [] :=
    by decide
  exact ⟨h, run_cnn_analysis_no_jpg_atomic [("OUTPUT_DIR", "/data/out")]
    (fun _ _ => [1]) "resnet50" _ "res" h⟩

lemma load_model_events_no_write (model_name : String) :
    (load_model model_name).2.filter Event.isFileWrite = [] := by
  unfold load_model
  split_ifs <;> rfl

lemma run_cnn_analysis_ok_eq (env : Env) (infer : Model → Img → List ℝ)
    (model_name : String) (listing : List String) (result_name : String)
    (m : Model) (himg : listing.filter isJpgName ≠ [])
    (hm : (load_model model_name).1 = Except.ok m) :
    run_cnn_analysis env infer model_name listing result_name =
      ⟨Except.ok (),
        (listing.filter isJpgName).map Event.imageRead ++
          [Event.loadModelCall model_name] ++ (load_model model_name).2 ++
          [Event.mkdirOutput (OUTPUT_DIR env),
           Event.writeCsv
             (pathJoin (OUTPUT_DIR env) (result_name ++ "_similarity.csv"))
             ⟨listing.filter isJpgName, listing.filter isJpgName,
              cosine_similarity (extract_features infer m
                ((listing.filter isJpgName).map Img.mk))⟩,
           Event.writePng
             (pathJoin (OUTPUT_DIR env) (result_name ++ "heatmap.png"))]⟩ := by
  have hlen : ¬((listing.filter isJpgName).map Img.mk).length = 0 := by
    simpa [List.length_eq_zero, List.map_eq_nil_iff] using himg
  simp only [run_cnn_analysis, load_images]
  rw [hm]
  simp only [hlen, if_false]

/-- C8: on success (at least one `.jpg` file, supported model), the batch
entry point writes exactly two result files into the output directory — the
CSV at `{name}_similarity.csv`, whose header row and first column are the
image filenames, and the heatmap raster at `{name}heatmap.png` — where the
output directory comes from the `OUTPUT_DIR` environment variable, falling
back to `/app/output` when it is unset. -/
theorem run_cnn_analysis_success_outputs (env : Env)
    (infer : Model → Img → List ℝ) (model_name : String)
    (listing : List String) (result_name : String)
    (himg : listing.filter isJpgName ≠ [])
    (hm : ∃ m, (load_model model_name).1 = Except.ok m) :
    (run_cnn_analysis env infer model_name listing result_name).outcome =
      Except.ok () ∧
    (∃ df : DataFrame,
      df.index = listing.filter isJpgName ∧
      df.columns = listing.filter isJpgName ∧
      (run_cnn_analysis env infer model_name listing
          result_name).events.filter Event.isFileWrite =
        [Event.writeCsv
          (pathJoin (OUTPUT_DIR env) (result_name ++ "_similarity.csv")) df,
         Event.writePng
          (pathJoin (OUTPUT_DIR env) (result_name ++ "heatmap.png"))]) ∧
    (List.lookup "OUTPUT_DIR" (env : List (String × String)) = none →
      OUTPUT_DIR env = "/app/output") := by
  obtain ⟨m, hm⟩ := hm
  rw [run_cnn_analysis_ok_eq env infer model_name listing result_name m
    himg hm]
  refine ⟨rfl,
    ⟨⟨listing.filter isJpgName, listing.filter isJpgName,
      cosine_similarity (extract_features infer m
        ((listing.filter isJpgName).map Img.mk))⟩, rfl, rfl, ?_⟩, ?_⟩
  · simp only [List.filter_append, load_model_events_no_write,
      List.filter_map]
    have hnone : ((listing.filter isJpgName).filter
        (Event.isFileWrite ∘ Event.imageRead)) = [] := by
      simp [Function.comp, Event.isFileWrite]
    rw [hnone]
    rfl
  · intro hu
    unfold OUTPUT_DIR envGet
    rw [hu]
    rfl

/-- C8 witness: one `.jpg` file, the `vgg16` backbone, and an unset
`OUTPUT_DIR` (so the fixed default `/app/output` is used). -/
theorem run_cnn_analysis_success_outputs_witness :
    (["a.jpg"] : List String).filter isJpgName ≠ [] ∧
    (∃ m, (load_model "vgg16").1 = Except.ok m) ∧
    ((run_cnn_analysis [] (fun _ _ => [1, 0]) "vgg16" ["a.jpg"]
        "run1").outcome = Except.ok () ∧
      (∃ df : DataFrame,
        df.index = (["a.jpg"] : List String).filter isJpgName ∧
        df.columns = (["a.jpg"] : List String).filter isJpgName ∧
        (run_cnn_analysis [] (fun _ _ => [1, 0]) "vgg16" ["a.jpg"]
            "run1").events.filter Event.isFileWrite =
          [Event.writeCsv
            (pathJoin (OUTPUT_DIR []) ("run1" ++ "_similarity.csv")) df,
           Event.writePng
            (pathJoin (OUTPUT_DIR []) ("run1" ++ "heatmap.png"))]) ∧
      (List.lookup "OUTPUT_DIR" ([] : List (String × String)) = none →
        OUTPUT_DIR [] = "/app/output")) := by
  have h1 : (["a.jpg"] : List String).filter isJpgName ≠ [] := by decide
  have h2 : ∃ m, (load_model "vgg16").1 = Except.ok m :=
    ⟨Model.vgg16features, by decide⟩
  exact ⟨h1, h2,
    run_cnn_analysis_success_outputs [] (fun _ _ => [1, 0]) "vgg16"
      ["a.jpg"] "run1" h1 h2⟩

end ImageProc
